import Mathlib

/-
Verification of the nostalgic-persuasive-model recommendation service.

Shallow embedding of the TypeScript server handlers and shared utilities:
  * `ErrorHandling`  — src/shared/utils/error-handling.ts (`catchError`, `tryCatch`)
  * `Preferences`    — src/server/api/habits/preferences.get.ts (nostalgic window)
  * `Stats`          — src/server/api/admin/stats.get.ts (rate formatting)
  * `Feedback`       — src/server/api/habits/feedback.post.ts and the unnamed
                       interaction-feedback handler (zod body schemas, effect traces)
  * `Movies`         — the unnamed movies endpoint (similar-mode fallback)
  * `Bandit`         — the LinUCB update pipeline (modelled from the spec; the
                       FastAPI bandit core is not part of this repository's sources)
  * `Selection`      — the LinUCB selection tie-break (modelled from the spec)

Promises are embedded as `Except` values (resolved / rejected); handler side
effects (database inserts, outbound HTTP calls) are embedded as explicit effect
traces, in the order the handler performs them.
-/

namespace ErrorHandling

/-- A JavaScript error value.  `classes` is the list of constructor identities
along its prototype chain, so `instanceof C` becomes `C ∈ e.classes`. -/
structure JsError where
  classes : List Nat
  msg : String
deriving DecidableEq, Repr

/-- Embedding of `err instanceof E` for an error-class identity `E`. -/
def instanceOf (e : JsError) (E : Nat) : Bool :=
  e.classes.contains E

/-- Embedding of `catchError` from src/shared/utils/error-handling.ts.
The awaited promise is an `Except JsError T`; the returned tuple
`[Error | undefined, T | undefined]` is `(Option JsError × Option T)`, and a
re-thrown error is the outer `.error`. -/
def catchError {T : Type} (promiseOrValue : Except JsError T)
    (errorsToCatch : Option (List Nat)) :
    Except JsError (Option JsError × Option T) :=
  match promiseOrValue with
  | .ok data => .ok (none, some data)
  | .error err =>
    match errorsToCatch with
    | none => .ok (some err, none)
    | some cs =>
      if cs.any (fun E => instanceOf err E) then .ok (some err, none)
      else .error err

/-- The `Result<T, E>` discriminated union from src/shared/utils/error-handling.ts. -/
inductive Result (T : Type) (E : Type) where
  | ok (data : T)
  | err (error : E)
deriving DecidableEq, Repr

/-- Embedding of `tryCatch`: the wrapped `fn` either resolves (`.ok`) or
throws (`.error`); `tryCatch` itself always returns a `Result`, never throws. -/
def tryCatch {T E : Type} (fn : Except E T) : Result T E :=
  match fn with
  | .ok data => .ok data
  | .error e => .err e

end ErrorHandling

namespace Preferences

/-- Embedding of the nostalgic-window computation in
src/server/api/habits/preferences.get.ts.  `birthYear` is the stored column
(nullable); `currentYear` stands for `new Date().getFullYear()`.  JavaScript
truthiness makes both `null` and `0` take the `null` branch. -/
def nostalgicPeriodStart (birthYear : Option Int) : Option Int :=
  match birthYear with
  | some y => if y ≠ 0 then some (y + 5) else none
  | none => none

/-- Embedding of `nostalgicPeriodEnd`:
`prefs.birthYear ? Math.min(prefs.birthYear + 19, new Date().getFullYear() - 1) : null`. -/
def nostalgicPeriodEnd (birthYear : Option Int) (currentYear : Int) : Option Int :=
  match birthYear with
  | some y => if y ≠ 0 then some (min (y + 19) (currentYear - 1)) else none
  | none => none

end Preferences

namespace Stats

/-- One row of the habit-completion aggregate (per experiment group) in
src/server/api/admin/stats.get.ts: `totalLogs` is `count()`, `completedLogs`
the conditional sum. -/
structure CompletionRow where
  totalLogs : Nat
  completedLogs : Nat
deriving DecidableEq, Repr

/-- The reported completion `rate`:
`g?.totalLogs && g.totalLogs > 0 ? (Number(g.completedLogs) / g.totalLogs) * 100 : 0`.
An absent group row (`undefined`) and a zero count both take the `0` branch
(JavaScript truthiness on `totalLogs`). -/
def completionRate (g : Option CompletionRow) : ℚ :=
  match g with
  | none => 0
  | some r =>
    if r.totalLogs ≠ 0 ∧ r.totalLogs > 0 then
      ((r.completedLogs : ℚ) / (r.totalLogs : ℚ)) * 100
    else 0

/-- The content-feedback aggregate row: `totalFeedback` is `count()`,
`positiveFeedback` the conditional sum over `bringsBackMemories`. -/
structure FeedbackStatsRow where
  totalFeedback : Nat
  positiveFeedback : Nat
deriving DecidableEq, Repr

/-- The reported `positiveRate` of `nostalgiaFeedback`:
`f?.totalFeedback && f.totalFeedback > 0 ? (Number(f.positiveFeedback) / f.totalFeedback) * 100 : 0`. -/
def positiveRate (f : Option FeedbackStatsRow) : ℚ :=
  match f with
  | none => 0
  | some r =>
    if r.totalFeedback ≠ 0 ∧ r.totalFeedback > 0 then
      ((r.positiveFeedback : ℚ) / (r.totalFeedback : ℚ)) * 100
    else 0

end Stats

namespace Feedback

/-- The `z.enum(['song', 'movie'])` enum — the required content type. -/
inductive ContentType where
  | song
  | movie
deriving DecidableEq, Repr

/-- The `interactionType` enum of the unnamed interaction-feedback handler:
`z.enum(['view', 'click', 'skip', 'next', 'replay', 'feedback']).default('feedback')`. -/
inductive InteractionType where
  | view
  | click
  | skip
  | next
  | replay
  | feedback
deriving DecidableEq, Repr

/-- The kind of a zod validation issue relevant to these schemas. -/
inductive ZodIssueKind where
  | required
  | invalidEnumValue
  | tooSmall
  | tooBig
deriving DecidableEq, Repr

/-- A zod issue: the offending field path and the issue kind. -/
structure ZodIssue where
  path : String
  kind : ZodIssueKind
deriving DecidableEq, Repr

/-- The raw (pre-validation) JSON body of a feedback/interaction request.
`none` is an absent field; enum-typed fields arrive as strings. -/
structure RawBody where
  contentType : Option String
  contentId : Option String
  interactionType : Option String
  durationSeconds : Option ℚ
  bringsBackMemories : Option Bool
  stressBefore : Option ℚ
  stressAfter : Option ℚ
  habitCompleted : Option Bool
  journalText : Option String
  contentYear : Option Int
  contentGenre : Option String
deriving DecidableEq, Repr

/-- A raw body with every field absent; concrete requests override fields. -/
def RawBody.empty : RawBody :=
  ⟨none, none, none, none, none, none, none, none, none, none, none⟩

/-- Parsed body of src/server/api/habits/feedback.post.ts (`bodySchema`):
`bringsBackMemories` is required there. -/
structure FeedbackBody where
  contentType : ContentType
  contentId : String
  bringsBackMemories : Bool
  stressBefore : Option ℚ
  stressAfter : Option ℚ
  habitCompleted : Option Bool
  journalText : Option String
  contentYear : Option Int
  contentGenre : Option String
deriving DecidableEq, Repr

/-- Parsed body of the interaction variant (`bodySchema` in the unnamed
handler): `interactionType` defaults to `feedback`, `bringsBackMemories`
is optional. -/
structure InteractionBody where
  contentType : ContentType
  contentId : String
  interactionType : InteractionType
  durationSeconds : Option ℚ
  bringsBackMemories : Option Bool
  stressBefore : Option ℚ
  stressAfter : Option ℚ
  habitCompleted : Option Bool
  journalText : Option String
  contentYear : Option Int
  contentGenre : Option String
deriving DecidableEq, Repr

/-- Check `z.enum(['song', 'movie'])` on a raw field. -/
def parseContentType : Option String → Except ZodIssue ContentType
  | some ("song") => .ok .song
  | some ("movie") => .ok .movie
  | some _ => .error ⟨"contentType", .invalidEnumValue⟩
  | none => .error ⟨"contentType", .required⟩

/-- Check `z.enum(['view', 'click', 'skip', 'next', 'replay', 'feedback']).default('feedback')`:
an absent field takes the default, an unknown string is rejected. -/
def parseInteractionType : Option String → Except ZodIssue InteractionType
  | none => .ok .feedback
  | some ("view") => .ok .view
  | some ("click") => .ok .click
  | some ("skip") => .ok .skip
  | some ("next") => .ok .next
  | some ("replay") => .ok .replay
  | some ("feedback") => .ok .feedback
  | some _ => .error ⟨"interactionType", .invalidEnumValue⟩

/-- A required field of any type (e.g. `z.string()`, `z.boolean()`). -/
def requireField {α : Type} (path : String) : Option α → Except ZodIssue α
  | some v => .ok v
  | none => .error ⟨path, .required⟩

/-- Check `z.number().min(0).max(1).optional()` — the stress fields. -/
def checkUnitInterval (path : String) : Option ℚ → Except ZodIssue (Option ℚ)
  | none => .ok none
  | some v =>
    if v < 0 then .error ⟨path, .tooSmall⟩
    else if v > 1 then .error ⟨path, .tooBig⟩
    else .ok (some v)

/-- The issues contributed by one field check. -/
def issuesOf {α : Type} : Except ZodIssue α → List ZodIssue
  | .ok _ => []
  | .error i => [i]

/-- Embedding of `bodySchema.parse` of src/server/api/habits/feedback.post.ts: the request
succeeds only if every field check passes, and otherwise fails with the
collected issues (zod reports all issues of a failing parse). -/
def parseFeedbackBody (raw : RawBody) : Except (List ZodIssue) FeedbackBody :=
  match parseContentType raw.contentType, requireField ("contentId") raw.contentId,
      requireField ("bringsBackMemories") raw.bringsBackMemories,
      checkUnitInterval ("stressBefore") raw.stressBefore,
      checkUnitInterval ("stressAfter") raw.stressAfter with
  | .ok ct, .ok cid, .ok bbm, .ok sb, .ok sa =>
    .ok { contentType := ct, contentId := cid, bringsBackMemories := bbm,
          stressBefore := sb, stressAfter := sa,
          habitCompleted := raw.habitCompleted, journalText := raw.journalText,
          contentYear := raw.contentYear, contentGenre := raw.contentGenre }
  | ct, cid, bbm, sb, sa =>
    .error (issuesOf ct ++ issuesOf cid ++ issuesOf bbm ++ issuesOf sb ++ issuesOf sa)

/-- Embedding of `bodySchema.parse` of the unnamed interaction handler. -/
def parseInteractionBody (raw : RawBody) : Except (List ZodIssue) InteractionBody :=
  match parseContentType raw.contentType, requireField ("contentId") raw.contentId,
      parseInteractionType raw.interactionType,
      checkUnitInterval ("stressBefore") raw.stressBefore,
      checkUnitInterval ("stressAfter") raw.stressAfter with
  | .ok ct, .ok cid, .ok it, .ok sb, .ok sa =>
    .ok { contentType := ct, contentId := cid, interactionType := it,
          durationSeconds := raw.durationSeconds,
          bringsBackMemories := raw.bringsBackMemories,
          stressBefore := sb, stressAfter := sa,
          habitCompleted := raw.habitCompleted, journalText := raw.journalText,
          contentYear := raw.contentYear, contentGenre := raw.contentGenre }
  | ct, cid, it, sb, sa =>
    .error (issuesOf ct ++ issuesOf cid ++ issuesOf it ++ issuesOf sb ++ issuesOf sa)

/-- The row inserted into `contentFeedback` (nullable columns are `Option`). -/
structure FeedbackRow where
  userId : String
  contentType : ContentType
  contentId : String
  interactionType : Option InteractionType
  durationSeconds : Option ℚ
  bringsBackMemories : Option Bool
deriving DecidableEq, Repr

/-- The JSON body of the outbound `POST /recommend/feedback` call. -/
structure BanditPayload where
  userId : String
  contentType : ContentType
  contentId : String
  bringsBackMemories : Option Bool
  stressBefore : Option ℚ
  stressAfter : Option ℚ
  habitCompleted : Option Bool
  journalText : Option String
  contentYear : Option Int
  contentGenre : Option String
deriving DecidableEq, Repr

/-- One observable side effect of a handler, in execution order. -/
inductive Effect where
  | dbInsert (row : FeedbackRow)
  | banditUpdateCall (payload : BanditPayload)
  | logError
deriving DecidableEq, Repr

/-- The handler's HTTP response. -/
inductive Response where
  | success (row : FeedbackRow) (message : String)
  | validationError (issues : List ZodIssue)
deriving DecidableEq, Repr

/-- A handler run: its ordered effect trace and its response. -/
structure Outcome where
  effects : List Effect
  response : Response
deriving DecidableEq, Repr

/-- Embedding of the src/server/api/habits/feedback.post.ts handler.
`fastApiOk` is whether the outbound `$fetch` resolves; when it rejects the
`catch` block logs and the handler still returns the success response. -/
def feedbackHandler (userId : String) (raw : RawBody) (fastApiOk : Bool) : Outcome :=
  match parseFeedbackBody raw with
  | .error issues => { effects := [], response := .validationError issues }
  | .ok body =>
    let row : FeedbackRow :=
      { userId := userId, contentType := body.contentType, contentId := body.contentId,
        interactionType := none, durationSeconds := none,
        bringsBackMemories := some body.bringsBackMemories }
    let payload : BanditPayload :=
      { userId := userId, contentType := body.contentType, contentId := body.contentId,
        bringsBackMemories := some body.bringsBackMemories,
        stressBefore := body.stressBefore, stressAfter := body.stressAfter,
        habitCompleted := body.habitCompleted, journalText := body.journalText,
        contentYear := body.contentYear, contentGenre := body.contentGenre }
    { effects := [.dbInsert row, .banditUpdateCall payload]
        ++ (if fastApiOk then [] else [.logError]),
      response := .success row ("Feedback recorded") }

/-- Embedding of the unnamed interaction-feedback handler: the row is always
inserted; the bandit update is only issued when
`body.interactionType === 'feedback' && body.bringsBackMemories !== undefined`. -/
def interactionHandler (userId : String) (raw : RawBody) (fastApiOk : Bool) : Outcome :=
  match parseInteractionBody raw with
  | .error issues => { effects := [], response := .validationError issues }
  | .ok body =>
    let row : FeedbackRow :=
      { userId := userId, contentType := body.contentType, contentId := body.contentId,
        interactionType := some body.interactionType,
        durationSeconds := body.durationSeconds,
        bringsBackMemories := body.bringsBackMemories }
    let payload : BanditPayload :=
      { userId := userId, contentType := body.contentType, contentId := body.contentId,
        bringsBackMemories := body.bringsBackMemories,
        stressBefore := body.stressBefore, stressAfter := body.stressAfter,
        habitCompleted := body.habitCompleted, journalText := body.journalText,
        contentYear := body.contentYear, contentGenre := body.contentGenre }
    if body.interactionType = InteractionType.feedback ∧ body.bringsBackMemories.isSome then
      { effects := [.dbInsert row, .banditUpdateCall payload]
          ++ (if fastApiOk then [] else [.logError]),
        response := .success row ("Interaction recorded") }
    else
      { effects := [.dbInsert row], response := .success row ("Interaction recorded") }

end Feedback

namespace Movies

/-- The `z.enum(['random', 'popular', 'similar']).optional().default('random')` enum. -/
inductive Mode where
  | random
  | popular
  | similar
deriving DecidableEq, Repr

/-- A row of the `movies` projection selected by the endpoint. -/
structure MovieRow where
  id : Int
  title : String
  year : Option Int
  genres : Option (List String)
deriving DecidableEq, Repr

/-- The endpoint's response shape: `{ items, count, mode }`. -/
structure MoviesResponse where
  items : List MovieRow
  count : Nat
  mode : Mode
deriving DecidableEq, Repr

/-- The validated query of the unnamed movies endpoint, with `selectedIds`
already split and parsed (the handler guards on a non-empty parsed list). -/
structure MoviesQuery where
  mode : Mode
  selectedIds : List Int
deriving DecidableEq, Repr

/-- Embedding of the unnamed movies endpoint handler.  The database is
external, so its three query shapes are parameters: `dbByIds ids` is the
`inArray(movies.id, ids)` select, `dbPopular` the `orderBy(desc(ratingCount))`
select, `dbRandom` the `orderBy(RANDOM())` select.  `fastApiResult` is the
outbound `POST /movies/recommend` call: `some ids` when it resolves with those
recommended movie ids, `none` when the `$fetch` rejects and the `catch` block
falls through.  The handler is a total function: every path returns a
response. -/
def moviesHandler (q : MoviesQuery) (fastApiResult : Option (List Int))
    (dbByIds : List Int → List MovieRow)
    (dbPopular : List MovieRow) (dbRandom : List MovieRow) : MoviesResponse :=
  let fellThrough :=
    if q.mode = Mode.popular then
      ({ items := dbPopular, count := dbPopular.length, mode := .popular } : MoviesResponse)
    else
      ({ items := dbRandom, count := dbRandom.length, mode := .random } : MoviesResponse)
  if q.mode = Mode.similar ∧ q.selectedIds ≠ [] then
    match fastApiResult with
    | some movieIds =>
      let results := dbByIds movieIds
      { items := results, count := results.length, mode := .similar }
    | none => fellThrough
  else fellThrough

end Movies

namespace Bandit

open Matrix

/-- Modelled from the spec: the per-arm LinUCB state kept by the FastAPI
bandit core, which is not among this repository's sources — a design matrix
`A` (d×d), a response vector `b` (length d), and the total update count. -/
structure Arm (d : Nat) where
  A : Matrix (Fin d) (Fin d) ℚ
  b : Fin d → ℚ
  updateCount : Nat

/-- Modelled from the spec: a new arm starts with `A = λI`, `b = 0`. -/
def initArm (lam : ℚ) (d : Nat) : Arm d :=
  { A := lam • (1 : Matrix (Fin d) (Fin d) ℚ), b := 0, updateCount := 0 }

/-- Modelled from the spec: the rank-one reward update
`A ← A + x xᵀ`, `b ← b + r·x`. -/
def updateArm {d : Nat} (s : Arm d) (x : Fin d → ℚ) (r : ℚ) : Arm d :=
  { A := s.A + Matrix.vecMulVec x x, b := s.b + r • x,
    updateCount := s.updateCount + 1 }

/-- A finite sequence of reward updates `(context, reward)` applied in order. -/
def runUpdates {d : Nat} (s : Arm d) (events : List ((Fin d → ℚ) × ℚ)) : Arm d :=
  events.foldl (fun t e => updateArm t e.1 e.2) s

/-- Symmetric positive definiteness of a rational matrix, stated through the
quadratic form. -/
def IsSymmPosDef {d : Nat} (M : Matrix (Fin d) (Fin d) ℚ) : Prop :=
  M.IsSymm ∧ ∀ x : Fin d → ℚ, x ≠ 0 → 0 < x ⬝ᵥ M.mulVec x

/-- Modelled from the spec: the lazily derived weight vector `θ = A⁻¹ b`.
(`Matrix.inv` carries no executable code in Mathlib, hence `noncomputable`.) -/
noncomputable def theta {d : Nat} (s : Arm d) : Fin d → ℚ :=
  s.A⁻¹.mulVec s.b

end Bandit

namespace Selection

open Matrix

/-- Modelled from the spec: the LinUCB score of arm state `s` on context `x`,
`score = θ·x + α·sqrt(xᵀ A⁻¹ x)` — the FastAPI selection core is not among
this repository's sources.  Arm state is exact (rational); the score is real
because of the square root. -/
noncomputable def armScore {d : Nat} (alpha : ℝ) (s : Bandit.Arm d)
    (x : Fin d → ℚ) : ℝ :=
  ((Bandit.theta s ⬝ᵥ x : ℚ) : ℝ) + alpha * Real.sqrt ((x ⬝ᵥ s.A⁻¹.mulVec x : ℚ) : ℝ)

/-- Modelled from the spec: the tie-break preference between two scored arms.
Arm `i` (score `si`, `ci` total updates, position `i` in the stable input
order) is preferred over arm `j` when its score beats `j`'s by more than the
floating-point epsilon, or the two tie within epsilon and `i` has fewer total
updates, or they tie and have equal update counts and `i` comes first in the
stable input order. -/
def Prefers (eps si sj : ℝ) (ci cj : Nat) (i j : Nat) : Prop :=
  sj + eps < si ∨ (|si - sj| ≤ eps ∧ (ci < cj ∨ (ci = cj ∧ i < j)))

/-- Modelled from the spec: position `i` of the candidate pool is the selected
arm when it is preferred, under the tie-break chain, over every other pool
position. -/
def IsSelected {d : Nat} (alpha eps : ℝ) (x : Fin d → ℚ)
    (pool : List (Bandit.Arm d)) (i : Fin pool.length) : Prop :=
  ∀ j : Fin pool.length, j ≠ i →
    Prefers eps (armScore alpha (pool.get i) x) (armScore alpha (pool.get j) x)
      (pool.get i).updateCount (pool.get j).updateCount i.val j.val

/-- First element of maximal prior score, `none` on the empty list (keeps the
earlier element when priors tie, matching the stable input order). -/
def argmaxPrior : List (String × ℚ) → Option (String × ℚ)
  | [] => none
  | p :: ps =>
    match argmaxPrior ps with
    | none => some p
    | some q => if q.2 > p.2 then some q else some p

/-- Modelled from the spec: within the winning arm, pick the candidate item
with the highest externally-supplied prior score, else uniformly at random
using a seedable source — `rand n` is the source's draw in `[0, n)` for the
current seed. -/
def pickItem (items : List (String × Option ℚ)) (rand : Nat → Nat) : Option String :=
  let withPrior := items.filterMap (fun p => p.2.map (fun q => (p.1, q)))
  match argmaxPrior withPrior with
  | some best => some best.1
  | none => (items.get? (rand items.length)).map Prod.fst

end Selection

/-- Claim C10: `catchError` is total with respect to the listed error classes —
a resolved value yields `[undefined, v]`; a rejection is returned as
`[e, undefined]` when `errorsToCatch` is undefined or contains a class of
which `e` is an instance, and is re-thrown only when an explicitly supplied
list matches none of `e`'s classes; and `tryCatch` never throws, returning
`ok`/`err` results for resolved/rejected computations. -/
theorem catchError_tryCatch_spec {T : Type} (v : T) (e : ErrorHandling.JsError)
    (cs : List Nat) :
    (∀ toCatch, ErrorHandling.catchError (Except.ok v) toCatch
        = Except.ok (none, some v)) ∧
    (ErrorHandling.catchError (T := T) (Except.error e) none
        = Except.ok (some e, none)) ∧
    ((∃ E ∈ cs, ErrorHandling.instanceOf e E) →
      ErrorHandling.catchError (T := T) (Except.error e) (some cs)
        = Except.ok (some e, none)) ∧
    ((∀ E ∈ cs, ¬ ErrorHandling.instanceOf e E) →
      ErrorHandling.catchError (T := T) (Except.error e) (some cs)
        = Except.error e) ∧
    (ErrorHandling.tryCatch (E := ErrorHandling.JsError) (Except.ok v)
        = ErrorHandling.Result.ok v) ∧
    (∀ er : ErrorHandling.JsError,
      ErrorHandling.tryCatch (T := T) (Except.error er) = ErrorHandling.Result.err er) := by
  refine ⟨fun toCatch => rfl, rfl, ?_, ?_, rfl, fun er => rfl⟩
  · intro hmatch
    have : cs.any (fun E => ErrorHandling.instanceOf e E) = true := by
      rcases hmatch with ⟨E, hE, hinst⟩
      exact List.any_eq_true.mpr ⟨E, hE, hinst⟩
    simp [ErrorHandling.catchError, this]
  · intro hnone
    have : cs.any (fun E => ErrorHandling.instanceOf e E) = false := by
      rw [List.any_eq_false]
      intro E hE
      simpa using hnone E hE
    simp [ErrorHandling.catchError, this]

/-- Witness for C10 at a concrete error, value and class list. -/
theorem catchError_tryCatch_spec_witness :
    (∃ E ∈ [7], ErrorHandling.instanceOf ⟨[7], "boom"⟩ E) ∧
    ErrorHandling.catchError (T := Nat) (Except.error ⟨[7], "boom"⟩) (some [7])
      = Except.ok (some ⟨[7], "boom"⟩, none) ∧
    (∀ E ∈ [9], ¬ ErrorHandling.instanceOf ⟨[7], "boom"⟩ E) ∧
    ErrorHandling.catchError (T := Nat) (Except.error ⟨[7], "boom"⟩) (some [9])
      = Except.error ⟨[7], "boom"⟩ := by
  have h7 := catchError_tryCatch_spec (T := Nat) 0 ⟨[7], "boom"⟩ [7]
  have h9 := catchError_tryCatch_spec (T := Nat) 0 ⟨[7], "boom"⟩ [9]
  refine ⟨by decide, h7.2.2.1 (by decide), by decide, h9.2.2.2.1 (by decide)⟩

/-- Claim C9: the admin stats endpoint never divides by zero — each group's
completion rate is 0 when the group row is absent or its total log count is 0,
and otherwise equals completed/total·100; likewise the nostalgia-feedback
positive rate is 0 when the aggregate is absent or its total is 0, and
otherwise equals positive/total·100. -/
theorem stats_rates_safe :
    (Stats.completionRate none = 0) ∧
    (∀ r : Stats.CompletionRow, r.totalLogs = 0 → Stats.completionRate (some r) = 0) ∧
    (∀ r : Stats.CompletionRow, 0 < r.totalLogs →
      Stats.completionRate (some r) = ((r.completedLogs : ℚ) / (r.totalLogs : ℚ)) * 100) ∧
    (Stats.positiveRate none = 0) ∧
    (∀ f : Stats.FeedbackStatsRow, f.totalFeedback = 0 → Stats.positiveRate (some f) = 0) ∧
    (∀ f : Stats.FeedbackStatsRow, 0 < f.totalFeedback →
      Stats.positiveRate (some f) = ((f.positiveFeedback : ℚ) / (f.totalFeedback : ℚ)) * 100) := by
  refine ⟨rfl, ?_, ?_, rfl, ?_, ?_⟩
  · intro r h; simp [Stats.completionRate, h]
  · intro r h; simp [Stats.completionRate, Nat.pos_iff_ne_zero.mp h, h]
  · intro f h; simp [Stats.positiveRate, h]
  · intro f h; simp [Stats.positiveRate, Nat.pos_iff_ne_zero.mp h, h]

/-- Witness for C9 at concrete aggregate rows. -/
theorem stats_rates_safe_witness :
    Stats.completionRate (some ⟨0, 0⟩) = 0 ∧
    Stats.completionRate (some ⟨4, 3⟩) = ((3 : ℚ) / 4) * 100 ∧
    Stats.positiveRate (some ⟨0, 0⟩) = 0 ∧
    Stats.positiveRate (some ⟨5, 2⟩) = ((2 : ℚ) / 5) * 100 := by
  have h := stats_rates_safe
  exact ⟨h.2.1 ⟨0, 0⟩ rfl, h.2.2.1 ⟨4, 3⟩ (by decide),
    h.2.2.2.2.1 ⟨0, 0⟩ rfl, h.2.2.2.2.2 ⟨5, 2⟩ (by decide)⟩

/-- Counterexample to C2 as stated: for a user born in 2020, with the server
clock at year 2026, the computed end of the nostalgic window is
`min(2020 + 19, 2026 - 1) = 2025`, not `2020 + 19 = 2039`. -/
theorem nostalgic_window_counterexample :
    Preferences.nostalgicPeriodStart (some 2020) = some 2025 ∧
    Preferences.nostalgicPeriodEnd (some 2020) 2026 ≠ some (2020 + 19) := by
  decide

/-- Claim C2 (amended): for a user with a truthy (non-null, nonzero) birth
year `y`, the nostalgic window is `y + 5` to `min(y + 19, currentYear - 1)`;
for a null birth year both bounds are null. -/
theorem nostalgic_window_amended (birthYear : Option Int) (currentYear : Int) :
    (∀ y : Int, birthYear = some y → y ≠ 0 →
      Preferences.nostalgicPeriodStart birthYear = some (y + 5) ∧
      Preferences.nostalgicPeriodEnd birthYear currentYear
        = some (min (y + 19) (currentYear - 1))) ∧
    (birthYear = none →
      Preferences.nostalgicPeriodStart birthYear = none ∧
      Preferences.nostalgicPeriodEnd birthYear currentYear = none) := by
  constructor
  · rintro y rfl hy
    simp [Preferences.nostalgicPeriodStart, Preferences.nostalgicPeriodEnd, hy]
  · rintro rfl
    simp [Preferences.nostalgicPeriodStart, Preferences.nostalgicPeriodEnd]

/-- Witness for the amended C2 at birth year 1990 and clock year 2026. -/
theorem nostalgic_window_amended_witness :
    Preferences.nostalgicPeriodStart (some (1990 : Int)) = some 1995 ∧
    Preferences.nostalgicPeriodEnd (some (1990 : Int)) 2026 = some 2009 := by
  have h := (nostalgic_window_amended (some 1990) 2026).1 1990 rfl (by decide)
  exact ⟨h.1, by rw [h.2]; decide⟩

/-- Helper: a stress value accepted by `z.number().min(0).max(1)` lies in [0, 1]. -/
theorem checkUnitInterval_ok_bounds {p : String} {v : ℚ} {res : Option ℚ}
    (h : Feedback.checkUnitInterval p (some v) = Except.ok res) : 0 ≤ v ∧ v ≤ 1 := by
  unfold Feedback.checkUnitInterval at h
  by_cases h1 : v < 0
  · simp [h1] at h
  · by_cases h2 : 1 < v
    · simp [h1, h2] at h
    · exact ⟨le_of_not_lt h1, le_of_not_lt h2⟩

/-- Helper: a successful feedback-body parse forces every field check,
in particular the two stress-range checks, to have succeeded. -/
theorem parseFeedbackBody_ok_checks {raw : Feedback.RawBody} {body : Feedback.FeedbackBody}
    (h : Feedback.parseFeedbackBody raw = Except.ok body) :
    (∃ sb, Feedback.checkUnitInterval ("stressBefore") raw.stressBefore = Except.ok sb) ∧
    (∃ sa, Feedback.checkUnitInterval ("stressAfter") raw.stressAfter = Except.ok sa) := by
  unfold Feedback.parseFeedbackBody at h
  cases h1 : Feedback.parseContentType raw.contentType <;> rw [h1] at h <;>
    cases h2 : Feedback.requireField ("contentId") raw.contentId <;> rw [h2] at h <;>
    cases h3 : Feedback.requireField ("bringsBackMemories") raw.bringsBackMemories <;>
    rw [h3] at h <;>
    cases h4 : Feedback.checkUnitInterval ("stressBefore") raw.stressBefore <;> rw [h4] at h <;>
    cases h5 : Feedback.checkUnitInterval ("stressAfter") raw.stressAfter <;> rw [h5] at h <;>
    simp_all

/-- Helper: when the content-type check fails, the whole feedback-body parse
fails and the content-type issue heads the issue list. -/
theorem parseFeedbackBody_contentType_issue (raw : Feedback.RawBody)
    (k : Feedback.ZodIssueKind)
    (hpc : Feedback.parseContentType raw.contentType = Except.error ⟨"contentType", k⟩) :
    ∃ rest, Feedback.parseFeedbackBody raw
      = Except.error (⟨"contentType", k⟩ :: rest) := by
  cases h2 : Feedback.requireField ("contentId") raw.contentId <;>
    cases h3 : Feedback.requireField ("bringsBackMemories") raw.bringsBackMemories <;>
    cases h4 : Feedback.checkUnitInterval ("stressBefore") raw.stressBefore <;>
    cases h5 : Feedback.checkUnitInterval ("stressAfter") raw.stressAfter <;>
    · simp only [Feedback.parseFeedbackBody, hpc, h2, h3, h4, h5, Feedback.issuesOf,
        List.cons_append, List.nil_append, List.append_nil]
      exact ⟨_, rfl⟩

/-- Helper: the same for the interaction-body parse. -/
theorem parseInteractionBody_contentType_issue (raw : Feedback.RawBody)
    (k : Feedback.ZodIssueKind)
    (hpc : Feedback.parseContentType raw.contentType = Except.error ⟨"contentType", k⟩) :
    ∃ rest, Feedback.parseInteractionBody raw
      = Except.error (⟨"contentType", k⟩ :: rest) := by
  cases h2 : Feedback.requireField ("contentId") raw.contentId <;>
    cases h3 : Feedback.parseInteractionType raw.interactionType <;>
    cases h4 : Feedback.checkUnitInterval ("stressBefore") raw.stressBefore <;>
    cases h5 : Feedback.checkUnitInterval ("stressAfter") raw.stressAfter <;>
    · simp only [Feedback.parseInteractionBody, hpc, h2, h3, h4, h5, Feedback.issuesOf,
        List.cons_append, List.nil_append, List.append_nil]
      exact ⟨_, rfl⟩

/-- Claim C1: a feedback/interaction request whose `interactionType` is a
passive interaction (view, click, skip, next, replay) or whose
`bringsBackMemories` field is absent never issues the outbound bandit-policy
update call, so arm parameters are untouched; the interaction row is still
inserted and the handler answers with the stored row. -/
theorem passive_interaction_no_bandit_update (userId : String) (raw : Feedback.RawBody)
    (fastApiOk : Bool) (body : Feedback.InteractionBody)
    (hparse : Feedback.parseInteractionBody raw = Except.ok body)
    (hpassive :
      body.interactionType = Feedback.InteractionType.view ∨
      body.interactionType = Feedback.InteractionType.click ∨
      body.interactionType = Feedback.InteractionType.skip ∨
      body.interactionType = Feedback.InteractionType.next ∨
      body.interactionType = Feedback.InteractionType.replay ∨
      body.bringsBackMemories = none) :
    (∀ p, Feedback.Effect.banditUpdateCall p
        ∉ (Feedback.interactionHandler userId raw fastApiOk).effects) ∧
    (∃ row, (Feedback.interactionHandler userId raw fastApiOk).effects
        = [Feedback.Effect.dbInsert row] ∧
      (Feedback.interactionHandler userId raw fastApiOk).response
        = Feedback.Response.success row ("Interaction recorded")) := by
  have hcond : ¬ (body.interactionType = Feedback.InteractionType.feedback ∧
      body.bringsBackMemories.isSome) := by
    rintro ⟨hfb, hsome⟩
    rcases hpassive with h | h | h | h | h | h <;> simp_all
  have hred : Feedback.interactionHandler userId raw fastApiOk
      = { effects := [Feedback.Effect.dbInsert
            { userId := userId, contentType := body.contentType,
              contentId := body.contentId,
              interactionType := some body.interactionType,
              durationSeconds := body.durationSeconds,
              bringsBackMemories := body.bringsBackMemories }],
          response := Feedback.Response.success
            { userId := userId, contentType := body.contentType,
              contentId := body.contentId,
              interactionType := some body.interactionType,
              durationSeconds := body.durationSeconds,
              bringsBackMemories := body.bringsBackMemories } "Interaction recorded" } := by
    simp [Feedback.interactionHandler, hparse, hcond]
  rw [hred]
  exact ⟨fun p => by simp, ⟨_, rfl, rfl⟩⟩

/-- Witness for C1: a concrete `view` interaction inserts its row and never
reaches the bandit-update call. -/
theorem passive_interaction_no_bandit_update_witness :
    Feedback.parseInteractionBody
        ⟨some ("song"), some ("s1"), some ("view"), none, none, none, none, none, none, none, none⟩
      = Except.ok
        { contentType := Feedback.ContentType.song, contentId := "s1",
          interactionType := Feedback.InteractionType.view,
          durationSeconds := none, bringsBackMemories := none,
          stressBefore := none, stressAfter := none, habitCompleted := none,
          journalText := none, contentYear := none, contentGenre := none } ∧
    Feedback.Effect.banditUpdateCall
        { userId := "u", contentType := Feedback.ContentType.song, contentId := "s1",
          bringsBackMemories := none, stressBefore := none, stressAfter := none,
          habitCompleted := none, journalText := none, contentYear := none,
          contentGenre := none }
      ∉ (Feedback.interactionHandler ("u")
          ⟨some ("song"), some ("s1"), some ("view"), none, none, none, none, none, none, none, none⟩
          true).effects := by
  refine ⟨rfl, ?_⟩
  exact (passive_interaction_no_bandit_update ("u")
    ⟨some ("song"), some ("s1"), some ("view"), none, none, none, none, none, none, none, none⟩
    true
    { contentType := Feedback.ContentType.song, contentId := "s1",
      interactionType := Feedback.InteractionType.view,
      durationSeconds := none, bringsBackMemories := none,
      stressBefore := none, stressAfter := none, habitCompleted := none,
      journalText := none, contentYear := none, contentGenre := none }
    rfl (Or.inl rfl)).1 _

/-- Claim C3: a feedback request whose `stressBefore` or `stressAfter` lies
outside [0, 1] fails validation (the spec's `InvalidReward`), is never
clamped, and produces neither a database insert nor a bandit-policy update. -/
theorem stress_out_of_range_rejected (userId : String) (raw : Feedback.RawBody)
    (fastApiOk : Bool)
    (h : (∃ v, raw.stressBefore = some v ∧ (v < 0 ∨ 1 < v)) ∨
         (∃ v, raw.stressAfter = some v ∧ (v < 0 ∨ 1 < v))) :
    (∀ body, Feedback.parseFeedbackBody raw ≠ Except.ok body) ∧
    (Feedback.feedbackHandler userId raw fastApiOk).effects = [] ∧
    (∃ issues, Feedback.parseFeedbackBody raw = Except.error issues ∧
      (Feedback.feedbackHandler userId raw fastApiOk).response
        = Feedback.Response.validationError issues) := by
  have hnotok : ∀ body, Feedback.parseFeedbackBody raw ≠ Except.ok body := by
    intro body hok
    have hc := parseFeedbackBody_ok_checks hok
    rcases h with ⟨v, hv, hrange⟩ | ⟨v, hv, hrange⟩
    · rcases hc.1 with ⟨sb, hsb⟩
      rw [hv] at hsb
      have hb := checkUnitInterval_ok_bounds hsb
      rcases hrange with hr | hr <;> linarith [hb.1, hb.2]
    · rcases hc.2 with ⟨sa, hsa⟩
      rw [hv] at hsa
      have hb := checkUnitInterval_ok_bounds hsa
      rcases hrange with hr | hr <;> linarith [hb.1, hb.2]
  refine ⟨hnotok, ?_, ?_⟩
  · cases hp : Feedback.parseFeedbackBody raw with
    | ok body => exact absurd hp (hnotok body)
    | error issues => simp [Feedback.feedbackHandler, hp]
  · cases hp : Feedback.parseFeedbackBody raw with
    | ok body => exact absurd hp (hnotok body)
    | error issues => exact ⟨issues, rfl, by simp [Feedback.feedbackHandler, hp]⟩

/-- Witness for C3: `stressBefore = 2` is rejected and leaves no effects. -/
theorem stress_out_of_range_rejected_witness :
    (some (2 : ℚ) = some (2 : ℚ) ∧ ((2 : ℚ) < 0 ∨ (1 : ℚ) < 2)) ∧
    (Feedback.feedbackHandler ("u")
        ⟨some ("song"), some ("s1"), none, none, some true, some 2, none, none, none, none, none⟩
        true).effects = [] := by
  refine ⟨⟨rfl, Or.inr (by norm_num)⟩, ?_⟩
  exact (stress_out_of_range_rejected ("u")
    ⟨some ("song"), some ("s1"), none, none, some true, some 2, none, none, none, none, none⟩
    true (Or.inl ⟨2, rfl, Or.inr (by norm_num)⟩)).2.1

open Matrix

/-- Helper: the quadratic form of `λI` is `λ·(x ⬝ᵥ x)`. -/
theorem smul_one_quadratic {d : Nat} (lam : ℚ) (x : Fin d → ℚ) :
    x ⬝ᵥ (lam • (1 : Matrix (Fin d) (Fin d) ℚ)).mulVec x = lam * (x ⬝ᵥ x) := by
  rw [Matrix.smul_mulVec_assoc, Matrix.one_mulVec, Matrix.dotProduct_smul, smul_eq_mul]

/-- Helper: `(v vᵀ) x = (v ⬝ᵥ x) • v` (written for general `v w`). -/
theorem vecMulVec_mulVec {d : Nat} (v w x : Fin d → ℚ) :
    (Matrix.vecMulVec v w).mulVec x = (w ⬝ᵥ x) • v := by
  ext i
  simp only [Matrix.mulVec, Matrix.vecMulVec_apply, Matrix.dotProduct, Pi.smul_apply,
    smul_eq_mul, Finset.sum_mul]
  exact Finset.sum_congr rfl fun j _ => by ring

/-- Helper: the rank-one matrix `v vᵀ` is symmetric. -/
theorem vecMulVec_isSymm {d : Nat} (v : Fin d → ℚ) : (Matrix.vecMulVec v v).IsSymm :=
  Matrix.IsSymm.ext fun i j => by simp [Matrix.vecMulVec_apply, mul_comm]

/-- Helper: the self dot product of a nonzero rational vector is positive. -/
theorem dotProduct_self_pos {d : Nat} {x : Fin d → ℚ} (hx : x ≠ 0) : 0 < x ⬝ᵥ x := by
  have hne : x ⬝ᵥ x ≠ 0 := fun h => hx (Matrix.dotProduct_self_eq_zero.mp h)
  have hnn : 0 ≤ x ⬝ᵥ x := by
    unfold Matrix.dotProduct
    exact Finset.sum_nonneg fun i _ => mul_self_nonneg (x i)
  exact lt_of_le_of_ne hnn (Ne.symm hne)

/-- Helper: the initial arm matrix `λI` is symmetric positive definite for
`λ > 0`. -/
theorem initArm_posDef (d : Nat) (lam : ℚ) (h : 0 < lam) :
    Bandit.IsSymmPosDef (Bandit.initArm lam d).A := by
  refine ⟨Matrix.isSymm_one.smul lam, fun x hx => ?_⟩
  rw [show (Bandit.initArm lam d).A = lam • (1 : Matrix (Fin d) (Fin d) ℚ) from rfl,
    smul_one_quadratic]
  exact mul_pos h (dotProduct_self_pos hx)

/-- Helper: one rank-one update preserves symmetric positive definiteness. -/
theorem symmPosDef_update {d : Nat} {M : Matrix (Fin d) (Fin d) ℚ}
    (h : Bandit.IsSymmPosDef M) (v : Fin d → ℚ) :
    Bandit.IsSymmPosDef (M + Matrix.vecMulVec v v) := by
  refine ⟨h.1.add (vecMulVec_isSymm v), fun x hx => ?_⟩
  rw [Matrix.add_mulVec, Matrix.dotProduct_add, vecMulVec_mulVec,
    Matrix.dotProduct_smul, smul_eq_mul, Matrix.dotProduct_comm x v]
  have h1 := h.2 x hx
  have h2 : 0 ≤ (v ⬝ᵥ x) * (v ⬝ᵥ x) := mul_self_nonneg _
  linarith

/-- Helper: any sequence of reward updates preserves symmetric positive
definiteness of the design matrix. -/
theorem runUpdates_posDef {d : Nat} (s : Bandit.Arm d)
    (events : List ((Fin d → ℚ) × ℚ)) (h : Bandit.IsSymmPosDef s.A) :
    Bandit.IsSymmPosDef (Bandit.runUpdates s events).A := by
  induction events generalizing s with
  | nil => exact h
  | cons e es ih => exact ih _ (symmPosDef_update h e.1)

/-- Helper: a symmetric positive-definite rational matrix has nonzero
determinant, hence is invertible. -/
theorem symmPosDef_det_ne_zero {d : Nat} {M : Matrix (Fin d) (Fin d) ℚ}
    (h : Bandit.IsSymmPosDef M) : M.det ≠ 0 := by
  intro hdet
  rcases Matrix.exists_mulVec_eq_zero_iff.mpr hdet with ⟨v, hv, hmv⟩
  have hq := h.2 v hv
  rw [hmv] at hq
  simp at hq

/-- Claim C6: starting from `A = λI` with `λ > 0`, after any finite sequence
of rank-one reward updates `A ← A + x xᵀ` the design matrix remains symmetric
positive definite, hence invertible (nonzero determinant). -/
theorem design_matrix_posDef (d : Nat) (lam : ℚ)
    (events : List ((Fin d → ℚ) × ℚ)) (hlam : 0 < lam) :
    Bandit.IsSymmPosDef (Bandit.runUpdates (Bandit.initArm lam d) events).A ∧
    (Bandit.runUpdates (Bandit.initArm lam d) events).A.det ≠ 0 := by
  have h := runUpdates_posDef (Bandit.initArm lam d) events (initArm_posDef d lam hlam)
  exact ⟨h, symmPosDef_det_ne_zero h⟩

/-- Witness for C6: dimension 2, `λ = 1`, one update with context `(2, 2)`. -/
theorem design_matrix_posDef_witness :
    (0 : ℚ) < 1 ∧
    (Bandit.IsSymmPosDef (Bandit.runUpdates (Bandit.initArm 1 2) [(fun _ => 2, 1)]).A ∧
      (Bandit.runUpdates (Bandit.initArm 1 2) [(fun _ => 2, 1)]).A.det ≠ 0) :=
  ⟨by norm_num, design_matrix_posDef 2 1 [(fun _ => 2, 1)] (by norm_num)⟩

/-- Helper: the tie-break preference chain is asymmetric whenever the
floating-point epsilon is nonnegative. -/
theorem prefers_asymm {eps si sj : ℝ} {ci cj i j : Nat} (heps : 0 ≤ eps)
    (h1 : Selection.Prefers eps si sj ci cj i j)
    (h2 : Selection.Prefers eps sj si cj ci j i) : False := by
  rcases h1 with h1 | ⟨ht1, hc1⟩ <;> rcases h2 with h2 | ⟨ht2, hc2⟩
  · linarith
  · rw [abs_sub_le_iff] at ht2
    linarith [ht2.1, ht2.2]
  · rw [abs_sub_le_iff] at ht1
    linarith [ht1.1, ht1.2]
  · rcases hc1 with hc1 | ⟨he1, hi1⟩ <;> rcases hc2 with hc2 | ⟨he2, hi2⟩ <;> omega

/-- Helper: in a one-arm pool every position is trivially selected. -/
theorem singleton_pool_selected {d : Nat} (alpha eps : ℝ) (x : Fin d → ℚ)
    (s : Bandit.Arm d) (i : Fin ([s].length)) :
    Selection.IsSelected alpha eps x [s] i := by
  intro j hj
  have hjl : j.val < 1 := j.isLt
  have hil : i.val < 1 := i.isLt
  exact absurd (Fin.ext (by omega)) hj

/-- Claim C7: selection is deterministic — with the same context, the same
candidate pool in the same stable order, the same arm states and a tie-break
random source behaving identically (same seed), the selected pool position is
unique and the within-arm item pick coincides, so two runs return the same
arm and the same candidate item. -/
theorem selection_deterministic {d : Nat} (alpha eps : ℝ) (x : Fin d → ℚ)
    (pool : List (Bandit.Arm d)) (i1 i2 : Fin pool.length)
    (items : List (String × Option ℚ)) (rand1 rand2 : Nat → Nat)
    (heps : 0 ≤ eps)
    (h1 : Selection.IsSelected alpha eps x pool i1)
    (h2 : Selection.IsSelected alpha eps x pool i2)
    (hrand : ∀ n, rand1 n = rand2 n) :
    i1 = i2 ∧ Selection.pickItem items rand1 = Selection.pickItem items rand2 := by
  constructor
  · by_contra hne
    exact prefers_asymm heps (h1 i2 (Ne.symm hne)) (h2 i1 hne)
  · rw [funext hrand]

/-- Witness for C7: a one-arm pool, epsilon 0, and two extensionally equal
random sources. -/
theorem selection_deterministic_witness :
    (0 : ℝ) ≤ 0 ∧
    ((⟨0, Nat.one_pos⟩ : Fin ([Bandit.initArm 1 1].length)) = ⟨0, Nat.one_pos⟩ ∧
      Selection.pickItem [("a", some 1)] (fun _ => 0)
        = Selection.pickItem [("a", some 1)] (fun _ => 0)) := by
  refine ⟨le_refl 0, ?_⟩
  exact selection_deterministic 1 0 (fun _ => 0) [Bandit.initArm 1 1]
    ⟨0, Nat.one_pos⟩ ⟨0, Nat.one_pos⟩ [("a", some 1)] (fun _ => 0) (fun _ => 0)
    (le_refl 0)
    (singleton_pool_selected 1 0 (fun _ => 0) (Bandit.initArm 1 1) ⟨0, Nat.one_pos⟩)
    (singleton_pool_selected 1 0 (fun _ => 0) (Bandit.initArm 1 1) ⟨0, Nat.one_pos⟩)
    (fun _ => rfl)

/-- Helper: a string outside the `['song', 'movie']` enum fails the
content-type check with an invalid-enum issue. -/
theorem parseContentType_invalid (s : String) (h1 : s ≠ "song") (h2 : s ≠ "movie") :
    Feedback.parseContentType (some s)
      = Except.error ⟨"contentType", Feedback.ZodIssueKind.invalidEnumValue⟩ := by
  unfold Feedback.parseContentType
  split <;> simp_all

/-- Claim C5: a feedback request omitting any of the optional signals
(`stressBefore`, `stressAfter`, `habitCompleted`, `journalText`,
`contentYear`, `contentGenre`) is accepted by both body schemas with the
missing signals passed through as absent, whereas a request whose required
`contentType` is missing or outside the `song`/`movie` enum is rejected with
a validation error on that field (the spec's `InvalidContext`). -/
theorem optional_signals_accepted_content_type_required (raw : Feedback.RawBody) :
    ((raw.contentType = some ("song") ∨ raw.contentType = some ("movie")) →
      (∃ cid, raw.contentId = some cid) →
      (∃ b, raw.bringsBackMemories = some b) →
      raw.interactionType = none →
      raw.stressBefore = none → raw.stressAfter = none →
      (∃ body, Feedback.parseFeedbackBody raw = Except.ok body ∧
        body.stressBefore = none ∧ body.stressAfter = none ∧
        body.habitCompleted = raw.habitCompleted ∧
        body.journalText = raw.journalText ∧
        body.contentYear = raw.contentYear ∧
        body.contentGenre = raw.contentGenre) ∧
      (∃ body, Feedback.parseInteractionBody raw = Except.ok body)) ∧
    ((raw.contentType = none ∨
        (∃ s, raw.contentType = some s ∧ s ≠ "song" ∧ s ≠ "movie")) →
      (∃ issues, Feedback.parseFeedbackBody raw = Except.error issues ∧
        ∃ i ∈ issues, i.path = "contentType") ∧
      (∃ issues, Feedback.parseInteractionBody raw = Except.error issues ∧
        ∃ i ∈ issues, i.path = "contentType")) := by
  constructor
  · rintro hct ⟨cid, hcid⟩ ⟨b, hbbm⟩ hit hsb hsa
    have hpc : ∃ ct, Feedback.parseContentType raw.contentType = Except.ok ct := by
      rcases hct with h | h <;> rw [h]
      · exact ⟨Feedback.ContentType.song, rfl⟩
      · exact ⟨Feedback.ContentType.movie, rfl⟩
    rcases hpc with ⟨ct, hpc⟩
    constructor
    · refine
        ⟨{ contentType := ct, contentId := cid, bringsBackMemories := b,
           stressBefore := none, stressAfter := none,
           habitCompleted := raw.habitCompleted, journalText := raw.journalText,
           contentYear := raw.contentYear, contentGenre := raw.contentGenre },
         ?_, rfl, rfl, rfl, rfl, rfl, rfl⟩
      simp [Feedback.parseFeedbackBody, Feedback.requireField, Feedback.checkUnitInterval,
        hpc, hcid, hbbm, hsb, hsa]
    · refine
        ⟨{ contentType := ct, contentId := cid,
           interactionType := Feedback.InteractionType.feedback,
           durationSeconds := raw.durationSeconds,
           bringsBackMemories := raw.bringsBackMemories,
           stressBefore := none, stressAfter := none,
           habitCompleted := raw.habitCompleted, journalText := raw.journalText,
           contentYear := raw.contentYear, contentGenre := raw.contentGenre },
         ?_⟩
      simp [Feedback.parseInteractionBody, Feedback.requireField, Feedback.checkUnitInterval,
        Feedback.parseInteractionType, hpc, hcid, hit, hsb, hsa]
  · intro hbad
    have hpc : ∃ k, Feedback.parseContentType raw.contentType
        = Except.error ⟨"contentType", k⟩ := by
      rcases hbad with h | ⟨s, hs, hs1, hs2⟩
      · rw [h]; exact ⟨Feedback.ZodIssueKind.required, rfl⟩
      · rw [hs]; exact ⟨Feedback.ZodIssueKind.invalidEnumValue, parseContentType_invalid s hs1 hs2⟩
    rcases hpc with ⟨k, hpc⟩
    rcases parseFeedbackBody_contentType_issue raw k hpc with ⟨rest1, h1⟩
    rcases parseInteractionBody_contentType_issue raw k hpc with ⟨rest2, h2⟩
    exact ⟨⟨_, h1, ⟨"contentType", k⟩, List.mem_cons_self _ _, rfl⟩,
      ⟨_, h2, ⟨"contentType", k⟩, List.mem_cons_self _ _, rfl⟩⟩

/-- Witness for C5: a request with only the required fields is accepted; one
with contentType `book` is rejected with a contentType issue. -/
theorem optional_signals_accepted_content_type_required_witness :
    (∃ body, Feedback.parseFeedbackBody
        ⟨some ("song"), some ("c1"), none, none, some true, none, none, none, none, none, none⟩
      = Except.ok body ∧ body.stressBefore = none ∧ body.stressAfter = none ∧
        body.habitCompleted = none ∧ body.journalText = none ∧
        body.contentYear = none ∧ body.contentGenre = none) ∧
    (∃ issues, Feedback.parseFeedbackBody
        ⟨some ("book"), some ("c1"), none, none, some true, none, none, none, none, none, none⟩
      = Except.error issues ∧ ∃ i ∈ issues, i.path = "contentType") := by
  constructor
  · exact ((optional_signals_accepted_content_type_required
      ⟨some ("song"), some ("c1"), none, none, some true, none, none, none, none, none, none⟩).1
      (Or.inl rfl) ⟨"c1", rfl⟩ ⟨true, rfl⟩ rfl rfl rfl).1
  · exact ((optional_signals_accepted_content_type_required
      ⟨some ("book"), some ("c1"), none, none, some true, none, none, none, none, none, none⟩).2
      (Or.inr ⟨"book", rfl, by decide, by decide⟩)).1

/-- Claim C8: for every valid explicit-feedback request the feedback row is
inserted into `contentFeedback` before the external bandit-update call is
attempted, and whether or not that call throws (`fastApiOk` is universally
quantified), the handler answers with the success response carrying the
persisted row, never an error. -/
theorem feedback_persisted_before_bandit_call (userId : String) (raw : Feedback.RawBody)
    (fastApiOk : Bool) :
    (∀ body, Feedback.parseFeedbackBody raw = Except.ok body →
      ∃ row payload rest,
        (Feedback.feedbackHandler userId raw fastApiOk).effects
          = Feedback.Effect.dbInsert row :: Feedback.Effect.banditUpdateCall payload :: rest ∧
        (Feedback.feedbackHandler userId raw fastApiOk).response
          = Feedback.Response.success row ("Feedback recorded")) ∧
    (∀ body, Feedback.parseInteractionBody raw = Except.ok body →
      body.interactionType = Feedback.InteractionType.feedback →
      body.bringsBackMemories.isSome →
      ∃ row payload rest,
        (Feedback.interactionHandler userId raw fastApiOk).effects
          = Feedback.Effect.dbInsert row :: Feedback.Effect.banditUpdateCall payload :: rest ∧
        (Feedback.interactionHandler userId raw fastApiOk).response
          = Feedback.Response.success row ("Interaction recorded")) := by
  constructor
  · intro body hp
    refine
      ⟨{ userId := userId, contentType := body.contentType, contentId := body.contentId,
         interactionType := none, durationSeconds := none,
         bringsBackMemories := some body.bringsBackMemories },
       { userId := userId, contentType := body.contentType, contentId := body.contentId,
         bringsBackMemories := some body.bringsBackMemories,
         stressBefore := body.stressBefore, stressAfter := body.stressAfter,
         habitCompleted := body.habitCompleted, journalText := body.journalText,
         contentYear := body.contentYear, contentGenre := body.contentGenre },
       if fastApiOk then [] else [Feedback.Effect.logError],
       ?_, ?_⟩ <;>
      cases fastApiOk <;> simp [Feedback.feedbackHandler, hp]
  · intro body hp hfb hsome
    refine
      ⟨{ userId := userId, contentType := body.contentType, contentId := body.contentId,
         interactionType := some body.interactionType,
         durationSeconds := body.durationSeconds,
         bringsBackMemories := body.bringsBackMemories },
       { userId := userId, contentType := body.contentType, contentId := body.contentId,
         bringsBackMemories := body.bringsBackMemories,
         stressBefore := body.stressBefore, stressAfter := body.stressAfter,
         habitCompleted := body.habitCompleted, journalText := body.journalText,
         contentYear := body.contentYear, contentGenre := body.contentGenre },
       if fastApiOk then [] else [Feedback.Effect.logError],
       ?_, ?_⟩ <;>
      cases fastApiOk <;> simp [Feedback.interactionHandler, hp, hfb, hsome]

/-- Witness for C8 on a concrete valid feedback request with a failing
external call. -/
theorem feedback_persisted_before_bandit_call_witness :
    Feedback.parseFeedbackBody
        ⟨some ("movie"), some ("m7"), none, none, some false, none, none, none, none, none, none⟩
      = Except.ok
        { contentType := Feedback.ContentType.movie, contentId := "m7",
          bringsBackMemories := false, stressBefore := none, stressAfter := none,
          habitCompleted := none, journalText := none, contentYear := none,
          contentGenre := none } ∧
    (∃ row payload rest,
      (Feedback.feedbackHandler ("u")
          ⟨some ("movie"), some ("m7"), none, none, some false, none, none, none, none, none, none⟩
          false).effects
        = Feedback.Effect.dbInsert row :: Feedback.Effect.banditUpdateCall payload :: rest ∧
      (Feedback.feedbackHandler ("u")
          ⟨some ("movie"), some ("m7"), none, none, some false, none, none, none, none, none, none⟩
          false).response
        = Feedback.Response.success row ("Feedback recorded")) := by
  refine ⟨rfl, ?_⟩
  exact (feedback_persisted_before_bandit_call ("u")
    ⟨some ("movie"), some ("m7"), none, none, some false, none, none, none, none, none, none⟩
    false).1 _ rfl

/-- Claim C4: when the external movie recommender call fails while the
request is otherwise valid (similar mode, non-empty selected ids), the movies
endpoint still returns a candidate list from the surviving database query (the
random-ordered select), with a normal response rather than a crash. -/
theorem movies_similar_fallback (q : Movies.MoviesQuery)
    (dbByIds : List Int → List Movies.MovieRow)
    (dbPopular dbRandom : List Movies.MovieRow)
    (hmode : q.mode = Movies.Mode.similar) (hsel : q.selectedIds ≠ []) :
    Movies.moviesHandler q none dbByIds dbPopular dbRandom
      = { items := dbRandom, count := dbRandom.length, mode := Movies.Mode.random } := by
  simp [Movies.moviesHandler, hmode, hsel]

/-- Witness for C4 on a concrete similar-mode query with a non-empty pool. -/
theorem movies_similar_fallback_witness :
    Movies.moviesHandler ⟨Movies.Mode.similar, [3, 4]⟩ none (fun _ => [])
        [] [⟨1, "Heat", some 1995, none⟩]
      = { items := [⟨1, "Heat", some 1995, none⟩], count := 1,
          mode := Movies.Mode.random } := by
  exact movies_similar_fallback ⟨Movies.Mode.similar, [3, 4]⟩ (fun _ => [])
    [] [⟨1, "Heat", some 1995, none⟩] rfl (by decide)
